import Mathlib

/-!
Shallow embedding of the `langgraph-azure-arcade-oauth-agent` backend
(`backend/app.py`, `backend/arcade_tools.py`).

External collaborators that the handlers call — the MSAL client
(`acquire_token_by_authorization_code`, `get_authorization_request_url`),
`verify_id_token`, the Cosmos container (`get_cosmos_container`,
`save_token_cache_to_cosmos`, `extract_info_from_cache`,
`get_refreshed_azure_tokens`) and the Arcade gateway client
(`confirm_user`, `wait_for_completion`) — are modelled as oracles packaged
in environment records; a fallible call is an `Except String α` whose
`.error e` arm stands for the call raising an exception with `str(e) = e`.

The browser session is an association list of string keys to values; every
handler returns, besides its HTTP response, the explicit list of session
mutations it performs and (for the callback) the list of Token Cache Store
writes and (for the verifier) the list of gateway calls, so that the
side-effect claims can be stated directly.
-/

namespace Backend

/-- Python truthiness of an optional string: `None` and `""` are falsy. -/
def strTruthy : Option String → Bool
  | none => false
  | some s => s ≠ ""

/-- Value stored in the cookie session: the handlers store strings
(`state`, `user_id`, `user_email`, `user_name`) and a number (`auth_time`,
`time.time()` modelled as a `Nat`). -/
inductive SVal where
  | str (s : String)
  | num (n : Nat)
deriving DecidableEq, Repr

/-- Python truthiness of a session value. -/
def SVal.truthy : SVal → Bool
  | .str s => s ≠ ""
  | .num n => n ≠ 0

/-- Coercion of a session value to the string Python would pass along. -/
def SVal.asString : SVal → String
  | .str s => s
  | .num n => toString n

/-- The cookie-bound session, as an association list (later bindings shadow
earlier ones, matching dict update semantics). -/
abbrev Session := List (String × SVal)

/-- Read of `request.session.get(key)`. -/
def sessionGet (s : Session) (k : String) : Option SVal :=
  s.lookup k

/-- One mutation a handler performs on `request.session`. -/
inductive SessionOp where
  | set (k : String) (v : SVal)
  | clear
deriving DecidableEq, Repr

/-- Application of one session mutation. -/
def applySessionOp (s : Session) : SessionOp → Session
  | .set k v => (k, v) :: s
  | .clear => []

/-- Application of a handler's session mutations in order. -/
def applySessionOps (s : Session) (ops : List SessionOp) : Session :=
  ops.foldl applySessionOp s

/-- Flat JSON value, enough for the bodies this app produces. -/
inductive JVal where
  | str (s : String)
  | bool (b : Bool)
deriving DecidableEq, Repr

/-- Flat JSON object body. -/
abbrev JObj := List (String × JVal)

/-- HTTP response: plain-text `Response`, `JSONResponse`, `RedirectResponse`
(starlette default status 307) or `HTMLResponse`. -/
inductive Resp where
  | text (status : Nat) (body : String)
  | json (status : Nat) (body : JObj)
  | redirect (status : Nat) (url : String)
  | html (status : Nat) (body : String)
deriving DecidableEq, Repr

/-- Status code of a response. -/
def Resp.statusCode : Resp → Nat
  | .text s _ => s
  | .json s _ => s
  | .redirect s _ => s
  | .html s _ => s

/-- Text body of a response (empty for JSON and redirects). -/
def Resp.bodyText : Resp → String
  | .text _ b => b
  | .json _ _ => ""
  | .redirect _ _ => ""
  | .html _ b => b

/-! ## GET /auth/login -/

/-- Result of the `/auth/login` handler. -/
structure LoginResult where
  resp : Resp
  sessionOps : List SessionOp
deriving Repr

/-- Handler `login` (`app.py`): generates a state nonce, stores it in the
session, and returns the MSAL authorization URL. The nonce (from
`secrets.token_urlsafe`) and the URL builder
(`msal_app.get_authorization_request_url`, a function of the state; scopes,
redirect URI and prompt are fixed) are parameters. -/
def login (authUrlOf : String → String) (state : String) : LoginResult :=
  { resp := .json 200 [("auth_url", .str (authUrlOf state))]
    sessionOps := [.set "state" (.str state)] }

/-! ## GET /auth/callback -/

/-- Dict returned by `msal_app.acquire_token_by_authorization_code`: the
handler tests key presence of `access_token` and `id_token` and reads
`error_description` with default `"Unknown error"`. -/
structure MsalResult where
  access_token : Option String
  id_token : Option String
  error_description : Option String
deriving DecidableEq, Repr

/-- Claims dict produced by `verify_id_token`; the handler reads
`oid`, `tid`, `email` (default `""`) and `name` (default `""`). -/
structure IdClaims where
  oid : Option String
  tid : Option String
  email : Option String
  name : Option String
deriving DecidableEq, Repr

/-- Oracles used by the `/auth/callback` handler. `exchange` is the MSAL
code-for-token exchange (a function of the code and the parsed scopes),
`verify` is `verify_id_token` (a function of the id_token value),
`container` is `get_cosmos_container`, `save` is
`save_token_cache_to_cosmos` (a function of the user key), and `now` is
`time.time()`. -/
structure CallbackEnv where
  exchange : String → List String → Except String MsalResult
  verify : String → Except String IdClaims
  container : Except String Unit
  save : String → Except String Unit
  now : Nat

/-- Query parameters of the `/auth/callback` request. -/
structure CallbackRequest where
  code : Option String
  scopes : Option String
  state : Option String
deriving DecidableEq, Repr

/-- Parsing of the optional `scopes` query parameter:
`[s.strip() for s in scopes_param.split() if s.strip()]`. -/
def parseScopes : Option String → List String
  | none => []
  | some sp => ((sp.split Char.isWhitespace).map String.trim).filter (fun s => s ≠ "")

/-- Result of the `/auth/callback` handler: the response, the session
mutations, and the Token Cache Store writes (the user keys written by
`save_token_cache_to_cosmos`). -/
structure CallbackResult where
  resp : Resp
  sessionOps : List SessionOp
  storeWrites : List String
deriving Repr

/-- User identity key derived at `app.py` line 119:
`user_key = f"\x7boid\x7d.\x7btid\x7d"`. -/
def derivedUserKey (oid tid : String) : String :=
  oid ++ "." ++ tid

/-- Handler `auth_callback` (`app.py`). The session is an argument because
the real handler has `request.session` in scope, but it never reads it (in
particular the stored CSRF `state` nonce is not checked — see the TODO in
the source). -/
def auth_callback (env : CallbackEnv) (req : CallbackRequest) (_session : Session) :
    CallbackResult :=
  let scopes := parseScopes req.scopes
  match req.code with
  | none => ⟨.text 400 "No authorization code provided", [], []⟩
  | some code =>
    if code = "" then ⟨.text 400 "No authorization code provided", [], []⟩
    else
      match env.exchange code scopes with
      | .error e =>
        ⟨.text 400 ("❌ Auth Callback Error: Token exchange failed raising " ++ e), [], []⟩
      | .ok result =>
        match result.access_token, result.id_token with
        | some _, some idTok =>
          match env.verify idTok with
          | .error _ =>
            ⟨.text 400 "❌ Auth Callback Error:Failed to verify id_token", [], []⟩
          | .ok claims =>
            if strTruthy claims.oid = false ∨ strTruthy claims.tid = false then
              ⟨.text 400 "❌ Auth Callback Error: Missing 'oid' or 'tid' claim in id_token",
               [], []⟩
            else
              match env.container with
              | .error e =>
                ⟨.text 400 ("❌ Auth Callback Error: Token exchange failed raising " ++ e),
                 [], []⟩
              | .ok _ =>
                let user_key := derivedUserKey (claims.oid.getD "") (claims.tid.getD "")
                match env.save user_key with
                | .error e =>
                  ⟨.text 400 ("❌ Auth Callback Error: Token exchange failed raising " ++ e),
                   [], []⟩
                | .ok _ =>
                  ⟨.text 200 "",
                   [.set "user_id" (.str user_key),
                    .set "auth_time" (.num env.now),
                    .set "user_email" (.str (claims.email.getD "")),
                    .set "user_name" (.str (claims.name.getD ""))],
                   [user_key]⟩
        | _, _ =>
          ⟨.text 400 ("❌ Auth Callback Error: " ++ result.error_description.getD "Unknown error"),
           [], []⟩

/-! ## GET /auth/status, /auth/logout -/

/-- Handler `auth_status` (`app.py`): reads `session.get("access_token")`
and reports `authenticated` by its truthiness. It performs no session
mutation (its type has no mutation output). -/
def auth_status (session : Session) : Resp :=
  match sessionGet session "access_token" with
  | some v =>
    if v.truthy then .json 200 [("authenticated", .bool true)]
    else .json 200 [("authenticated", .bool false)]
  | none => .json 200 [("authenticated", .bool false)]

/-- Result of the `/auth/logout` handler. -/
structure LogoutResult where
  resp : Resp
  sessionOps : List SessionOp
deriving Repr

/-- Handler `logout` (`app.py`): clears the session unconditionally. -/
def logout (_session : Session) : LogoutResult :=
  ⟨.text 200 "", [.clear]⟩

/-! ## GET /auth/tokens -/

/-- Opaque token info extracted from the cached blob. -/
abbrev TokenInfo := String

/-- Oracles used by the `/auth/tokens` handler. -/
structure TokensEnv where
  container : Except String Unit
  extract : String → Except String (Option TokenInfo)
  refresh : TokenInfo → Except String (String × String)

/-- Result of the `/auth/tokens` handler. -/
structure TokensResult where
  resp : Resp
  sessionOps : List SessionOp
deriving Repr

/-- Handler `get_tokens` (`app.py`): serves fresh tokens for the session
user from the durable token cache; never mutates the session. -/
def get_tokens (env : TokensEnv) (session : Session) : TokensResult :=
  match sessionGet session "user_id" with
  | none => ⟨.json 401 [("error", .str "❌ Token Issuance Error: No valid session")], []⟩
  | some v =>
    if v.truthy = false then
      ⟨.json 401 [("error", .str "❌ Token Issuance Error: No valid session")], []⟩
    else
      match env.container with
      | .error e => ⟨.json 401 [("error", .str ("❌ Token Issuance Error: " ++ e))], []⟩
      | .ok _ =>
        match env.extract v.asString with
        | .error e => ⟨.json 401 [("error", .str ("❌ Token Issuance Error: " ++ e))], []⟩
        | .ok none =>
          ⟨.json 401 [("error", .str "❌ Token Issuance Error: No token info found in cache")],
           []⟩
        | .ok (some info) =>
          match env.refresh info with
          | .error e => ⟨.json 401 [("error", .str ("❌ Token Issuance Error: " ++ e))], []⟩
          | .ok (access, idt) =>
            ⟨.json 200 [("access_token", .str access), ("id_token", .str idt)], []⟩

/-! ## GET /arcade/verify -/

/-- Value returned by `client.auth.confirm_user`. -/
structure ConfirmResult where
  auth_id : String
  next_uri : Option String
deriving DecidableEq, Repr

/-- Oracles for the Arcade gateway: `confirm` is
`client.auth.confirm_user` (a function of flow_id and user_id) and `wait`
is `client.auth.wait_for_completion` (a function of the auth_id),
returning the terminal status string. -/
structure ArcadeEnv where
  confirm : String → String → Except String ConfirmResult
  wait : String → Except String String

/-- One server-side call to the Arcade gateway. -/
inductive GatewayCall where
  | confirm_user (flow_id user_id : String)
  | wait_for_completion (auth_id : String)
deriving DecidableEq, Repr

/-- Result of the `/arcade/verify` handler: the response, the gateway
calls made (in order), and the session mutations. -/
structure ArcadeVerifyResult where
  resp : Resp
  gatewayCalls : List GatewayCall
  sessionOps : List SessionOp
deriving Repr

/-- Static HTML success page returned by `/arcade/verify` when the flow
completed and the gateway supplied no continuation URL (`app.py`
lines 231-278; braces of the inline CSS written as \x7b and \x7d). -/
def successPageHtml : String :=
  "<html><head><title>Authorization Successful</title><style>" ++
  "body \x7b font-family: system-ui, -apple-system, sans-serif; display: flex; " ++
  "justify-content: center; align-items: center; height: 100vh; margin: 0; " ++
  "background: linear-gradient(135deg, #667eea 0%, #764ba2 100%); \x7d " ++
  ".card \x7b background: white; padding: 2rem; border-radius: 8px; " ++
  "box-shadow: 0 4px 6px rgba(0, 0, 0, 0.1); text-align: center; max-width: 400px; \x7d " ++
  "h1 \x7b color: #10b981; margin-top: 0; \x7d p \x7b color: #6b7280; \x7d " ++
  ".close-btn \x7b margin-top: 1rem; padding: 0.5rem 1rem; background: #667eea; " ++
  "color: white; border: none; border-radius: 4px; cursor: pointer; \x7d " ++
  "</style></head><body><div class=\"card\"><h1>✓ Authorization Successful</h1>" ++
  "<p>You have successfully authorized the application.</p>" ++
  "<p>You can close this window and return to the application.</p>" ++
  "<button class=\"close-btn\" onclick=\"window.close()\">Close Window</button>" ++
  "</div></body></html>"

/-- Handler `arcade_verify` (`app.py`): validates `flow_id`, requires an
authenticated session, then confirms the flow with the gateway and awaits
its completion. -/
def arcade_verify (env : ArcadeEnv) (flow_id : String) (session : Session) :
    ArcadeVerifyResult :=
  if flow_id = "" then
    ⟨.text 400 "❌ Arcade Verify Error: Missing required parameter: flow_id", [], []⟩
  else
    match sessionGet session "user_id" with
    | none =>
      ⟨.text 401 "❌ Arcade Verify Error: User not authenticated. Please log in first.",
       [], []⟩
    | some v =>
      if v.truthy = false then
        ⟨.text 401 "❌ Arcade Verify Error: User not authenticated. Please log in first.",
         [], []⟩
      else
        let user_id := v.asString
        match env.confirm flow_id user_id with
        | .error e =>
          ⟨.text 400 ("❌ Arcade Verify Error: Failed to verify user. " ++ e),
           [.confirm_user flow_id user_id], []⟩
        | .ok result =>
          match env.wait result.auth_id with
          | .error e =>
            ⟨.text 400 ("❌ Arcade Verify Error: Failed to verify user. " ++ e),
             [.confirm_user flow_id user_id, .wait_for_completion result.auth_id], []⟩
          | .ok status =>
            if status = "completed" then
              if strTruthy result.next_uri then
                ⟨.redirect 307 (result.next_uri.getD ""),
                 [.confirm_user flow_id user_id, .wait_for_completion result.auth_id], []⟩
              else
                ⟨.html 200 successPageHtml,
                 [.confirm_user flow_id user_id, .wait_for_completion result.auth_id], []⟩
            else
              ⟨.text 400 ("❌ Arcade Verify Error: Authorization status: " ++ status),
               [.confirm_user flow_id user_id, .wait_for_completion result.auth_id], []⟩

/-- Session predicate the handlers use for authentication: a truthy
`user_id` entry. -/
def sessionAuthenticated (s : Session) : Bool :=
  match sessionGet s "user_id" with
  | some v => v.truthy
  | none => false

/-! ## arcade_tools.py -/

/-- Inner dict `configurable["langgraph_auth_user"]` of the runtime. -/
structure AuthUserDict where
  identity : Option String
deriving DecidableEq, Repr

/-- Inner dict `runtime["configurable"]`. -/
structure ConfigurableDict where
  langgraph_auth_user : Option AuthUserDict
deriving DecidableEq, Repr

/-- Dict-like LangGraph runtime context: each `.get(key, \x7b\x7d)` level
is an `Option` defaulting to the empty dict. -/
structure Runtime where
  configurable : Option ConfigurableDict
deriving DecidableEq, Repr

/-- Identity value reachable through the nested `.get` chain of the
runtime ( `none` when any level is absent). -/
def runtimeIdentity (rt : Runtime) : Option String :=
  ((rt.configurable.getD ⟨none⟩).langgraph_auth_user.getD ⟨none⟩).identity

/-- Function `get_user_id_from_runtime` (`arcade_tools.py`): extracts the
authenticated user's identity; `raise ValueError(...)` is the `.error`
arm. -/
def get_user_id_from_runtime (rt : Runtime) : Except String String :=
  let configurable := rt.configurable.getD ⟨none⟩
  let user := configurable.langgraph_auth_user.getD ⟨none⟩
  match user.identity with
  | some uid =>
    if uid = "" then .error "No authenticated user found in runtime context"
    else .ok uid
  | none => .error "No authenticated user found in runtime context"

/-- Configuration of one MCP server connection. -/
structure MCPServerConfig where
  transport : String
  url : String
  headers : List (String × String)
deriving DecidableEq, Repr

/-- Function `get_arcade_mcp_client` (`arcade_tools.py`): builds the
`MultiServerMCPClient` configuration dict; `mcpUrl` and `apiKey` are the
`ARCADE_MCP_URL` and `ARCADE_API_KEY` environment values. -/
def get_arcade_mcp_client (mcpUrl apiKey : String) (user_id : String) :
    List (String × MCPServerConfig) :=
  [("arcade",
    { transport := "streamable_http"
      url := mcpUrl
      headers := [("Authorization", "Bearer " ++ apiKey), ("Arcade-User-Id", user_id)] })]

/-- The user-scoping header of the client configuration. -/
def arcadeUserIdHeader (cfgs : List (String × MCPServerConfig)) : Option String :=
  (cfgs.lookup "arcade").bind (fun c => c.headers.lookup "Arcade-User-Id")

/-! ## Concrete environments used to evaluate the handlers -/

/-- Gateway environment in which every call raises; used to show the 401
path never reaches the gateway. -/
def arcadeEnvNever : ArcadeEnv :=
  ⟨fun _ _ => .error "unreachable", fun _ => .error "unreachable"⟩

/-- Gateway environment: confirm succeeds with no continuation URL, the
flow completes. -/
def arcadeEnvCompleted : ArcadeEnv :=
  ⟨fun _ _ => .ok ⟨"aid-1", none⟩, fun _ => .ok "completed"⟩

/-- Gateway environment: confirm succeeds with a continuation URL, the
flow completes. -/
def arcadeEnvRedirect : ArcadeEnv :=
  ⟨fun _ _ => .ok ⟨"aid-2", some "https://gateway.example/next"⟩, fun _ => .ok "completed"⟩

/-- Callback environment in which every oracle succeeds. -/
def cbEnvOk : CallbackEnv :=
  { exchange := fun _ _ => .ok ⟨some "acc-tok-1", some "idtok-1", none⟩
    verify := fun _ => .ok ⟨some "oid1", some "tid1", some "user@example.com", some "User One"⟩
    container := .ok ()
    save := fun _ => .ok ()
    now := 42 }

/-- Callback environment in which `verify_id_token` raises. -/
def cbEnvBadVerify : CallbackEnv :=
  { cbEnvOk with verify := fun _ => .error "InvalidSignature" }

/-- Callback environment in which the MSAL token exchange raises. -/
def cbEnvRaises : CallbackEnv :=
  { cbEnvOk with exchange := fun _ _ => .error "BOOM" }

/-- Callback environment in which the Token Cache Store write raises. -/
def cbEnvBadSave : CallbackEnv :=
  { cbEnvOk with save := fun _ => .error "CosmosUnavailable" }

/-- Callback request with a valid authorization code. -/
def cbReqOk : CallbackRequest := ⟨some "authcode", none, none⟩

/-! ## Theorems -/

/-- Claim C1: a GET /arcade/verify request carrying a flow_id but whose
session holds no authenticated user_key is answered 401 Unauthenticated,
and the gateway is never contacted — no confirm_user or
wait_for_completion call is made. -/
theorem arcade_verify_unauthenticated_401_no_gateway
    (env : ArcadeEnv) (flow_id : String) (session : Session)
    (hf : flow_id ≠ "") (hs : sessionAuthenticated session = false) :
    arcade_verify env flow_id session =
      ⟨.text 401 "❌ Arcade Verify Error: User not authenticated. Please log in first.",
       [], []⟩ := by
  unfold arcade_verify
  unfold sessionAuthenticated at hs
  rw [if_neg hf]
  cases h : sessionGet session "user_id" with
  | none => rfl
  | some v =>
    rw [h] at hs
    simp at hs
    simp [hs]

/-- Witness for C1 at a concrete input: empty session, nonempty flow_id. -/
theorem arcade_verify_unauthenticated_401_no_gateway_witness :
    arcade_verify arcadeEnvNever "flow-1" [] =
      ⟨.text 401 "❌ Arcade Verify Error: User not authenticated. Please log in first.",
       [], []⟩ :=
  arcade_verify_unauthenticated_401_no_gateway arcadeEnvNever "flow-1" []
    (by decide) rfl

/-- Claim C4 (amended): with an authenticated session and a flow_id, the
handler first calls confirm_user with the flow_id and the session user
key, then awaits wait_for_completion on the returned auth_id; status
"completed" yields a success response — a 307 redirect to the
gateway-supplied continuation URL when one is present, else the 200 HTML
success page — and any other terminal status yields 400 with that status
string surfaced in the body. -/
theorem arcade_verify_confirm_then_wait
    (env : ArcadeEnv) (flow_id : String) (session : Session) (uid : String)
    (r : ConfirmResult) (status : String)
    (hf : flow_id ≠ "") (hs : sessionGet session "user_id" = some (.str uid))
    (hu : uid ≠ "")
    (hc : env.confirm flow_id uid = .ok r) (hw : env.wait r.auth_id = .ok status) :
    arcade_verify env flow_id session =
      if status = "completed" then
        if strTruthy r.next_uri then
          ⟨.redirect 307 (r.next_uri.getD ""),
           [.confirm_user flow_id uid, .wait_for_completion r.auth_id], []⟩
        else
          ⟨.html 200 successPageHtml,
           [.confirm_user flow_id uid, .wait_for_completion r.auth_id], []⟩
      else
        ⟨.text 400 ("❌ Arcade Verify Error: Authorization status: " ++ status),
         [.confirm_user flow_id uid, .wait_for_completion r.auth_id], []⟩ := by
  unfold arcade_verify
  rw [if_neg hf, hs]
  simp only [SVal.truthy, SVal.asString]
  rw [if_neg (by simpa using hu)]
  simp only [hc, hw]

/-- Witness for C4 at a concrete input: completed flow without a
continuation URL yields the 200 HTML success page after confirm and
wait. -/
theorem arcade_verify_confirm_then_wait_witness :
    arcade_verify arcadeEnvCompleted "flow-2" [("user_id", .str "oid1.tid1")] =
      ⟨.html 200 successPageHtml,
       [.confirm_user "flow-2" "oid1.tid1", .wait_for_completion "aid-1"], []⟩ := by
  rw [arcade_verify_confirm_then_wait arcadeEnvCompleted "flow-2"
    [("user_id", .str "oid1.tid1")] "oid1.tid1" ⟨"aid-1", none⟩ "completed"
    (by decide) rfl (by decide) rfl rfl]
  rfl

/-- Counterexample for C4 as stated: with a continuation URL present and
the flow completed, the handler answers with a 307 redirect, not a 200
response. -/
theorem arcade_verify_redirect_is_307_not_200 :
    (arcade_verify arcadeEnvRedirect "flow-3" [("user_id", .str "oid1.tid1")]).resp =
      .redirect 307 "https://gateway.example/next" ∧
    (arcade_verify arcadeEnvRedirect "flow-3" [("user_id", .str "oid1.tid1")]).resp.statusCode
      ≠ 200 := by
  constructor
  · rfl
  · decide

/-- Claim C5 (amended): Tool-Gateway Binding fails fast (raises, modelled
as the error arm) whenever the nested identity value of the runtime
context is absent at any level or empty, and whenever a nonempty identity
is present it extracts it and the produced client configuration carries an
Arcade-User-Id header exactly equal to it. -/
theorem tool_gateway_binding_scoping (mcpUrl apiKey : String) (rt : Runtime) :
    ((runtimeIdentity rt = none ∨ runtimeIdentity rt = some "") →
      get_user_id_from_runtime rt =
        .error "No authenticated user found in runtime context") ∧
    (∀ uid, runtimeIdentity rt = some uid → uid ≠ "" →
      get_user_id_from_runtime rt = .ok uid ∧
      arcadeUserIdHeader (get_arcade_mcp_client mcpUrl apiKey uid) = some uid) := by
  have key : get_user_id_from_runtime rt =
      match runtimeIdentity rt with
      | some uid =>
        if uid = "" then .error "No authenticated user found in runtime context"
        else .ok uid
      | none => .error "No authenticated user found in runtime context" := rfl
  constructor
  · intro h
    rcases h with h | h <;> rw [key, h]
    rfl
  · intro uid hid hne
    refine ⟨?_, rfl⟩
    rw [key, hid]
    simp only [if_neg hne]

/-- Witness for C5 at a concrete input: identity present and nonempty. -/
theorem tool_gateway_binding_scoping_witness :
    get_user_id_from_runtime ⟨some ⟨some ⟨some "oid1.tid1"⟩⟩⟩ = .ok "oid1.tid1" ∧
    arcadeUserIdHeader
        (get_arcade_mcp_client "https://api.arcade.dev/v1/mcp" "svc-key" "oid1.tid1") =
      some "oid1.tid1" :=
  (tool_gateway_binding_scoping "https://api.arcade.dev/v1/mcp" "svc-key"
    ⟨some ⟨some ⟨some "oid1.tid1"⟩⟩⟩).2 "oid1.tid1" rfl (by decide)

/-- Counterexample for C5 as stated: a runtime whose identity descriptor
is present at every level but holds the empty string makes the binding
raise instead of producing a client configuration whose scoping header
equals the extracted key. -/
theorem tool_gateway_binding_empty_identity_fails :
    runtimeIdentity ⟨some ⟨some ⟨some ""⟩⟩⟩ = some "" ∧
    get_user_id_from_runtime ⟨some ⟨some ⟨some ""⟩⟩⟩ =
      .error "No authenticated user found in runtime context" :=
  ⟨rfl, rfl⟩

/-- Exhaustive shape of an `/auth/callback` run: either a 400 with no
session mutation and no store write, or the one successful branch, in
which the exchange returned both tokens, the id_token verified, both
required claims were nonempty, and the handler wrote the derived user key
to the store and the four claim-derived entries to the session. -/
theorem auth_callback_cases (env : CallbackEnv) (req : CallbackRequest) (s : Session) :
    ((auth_callback env req s).resp.statusCode = 400 ∧
     (auth_callback env req s).sessionOps = [] ∧
     (auth_callback env req s).storeWrites = []) ∨
    (∃ code result idTok claims,
      req.code = some code ∧ code ≠ "" ∧
      env.exchange code (parseScopes req.scopes) = .ok result ∧
      result.id_token = some idTok ∧
      env.verify idTok = .ok claims ∧
      strTruthy claims.oid = true ∧ strTruthy claims.tid = true ∧
      auth_callback env req s =
        ⟨.text 200 "",
         [.set "user_id" (.str (derivedUserKey (claims.oid.getD "") (claims.tid.getD ""))),
          .set "auth_time" (.num env.now),
          .set "user_email" (.str (claims.email.getD "")),
          .set "user_name" (.str (claims.name.getD ""))],
         [derivedUserKey (claims.oid.getD "") (claims.tid.getD "")]⟩) := by
  cases hc : req.code with
  | none =>
    refine Or.inl ?_
    unfold auth_callback
    rw [hc]
    exact ⟨rfl, rfl, rfl⟩
  | some code =>
    by_cases hne : code = ""
    · refine Or.inl ?_
      subst hne
      unfold auth_callback
      rw [hc]
      exact ⟨rfl, rfl, rfl⟩
    · cases hex : env.exchange code (parseScopes req.scopes) with
      | error e =>
        refine Or.inl ?_
        unfold auth_callback
        rw [hc]
        dsimp only
        rw [if_neg hne]
        simp only [hex]
        refine ⟨?_, ?_, ?_⟩ <;> trivial
      | ok result =>
        cases hat : result.access_token with
        | none =>
          refine Or.inl ?_
          unfold auth_callback
          rw [hc]
          dsimp only
          rw [if_neg hne]
          simp only [hex, hat]
          refine ⟨?_, ?_, ?_⟩ <;> trivial
        | some atk =>
          cases hid : result.id_token with
          | none =>
            refine Or.inl ?_
            unfold auth_callback
            rw [hc]
            dsimp only
            rw [if_neg hne]
            simp only [hex, hat, hid]
            refine ⟨?_, ?_, ?_⟩ <;> trivial
          | some idTok =>
            cases hv : env.verify idTok with
            | error e =>
              refine Or.inl ?_
              unfold auth_callback
              rw [hc]
              dsimp only
              rw [if_neg hne]
              simp only [hex, hat, hid, hv]
              refine ⟨?_, ?_, ?_⟩ <;> trivial
            | ok claims =>
              by_cases hclaims : strTruthy claims.oid = false ∨ strTruthy claims.tid = false
              · refine Or.inl ?_
                unfold auth_callback
                rw [hc]
                dsimp only
                rw [if_neg hne]
                simp only [hex, hat, hid, hv]
                rw [if_pos hclaims]
                exact ⟨rfl, rfl, rfl⟩
              · push_neg at hclaims
                obtain ⟨ho, ht⟩ := hclaims
                rw [Bool.ne_false_iff] at ho ht
                have hcond : ¬(strTruthy claims.oid = false ∨ strTruthy claims.tid = false) := by
                  simp [ho, ht]
                cases hcont : env.container with
                | error e =>
                  refine Or.inl ?_
                  unfold auth_callback
                  rw [hc]
                  dsimp only
                  rw [if_neg hne]
                  simp only [hex, hat, hid, hv]
                  rw [if_neg hcond]
                  simp only [hcont]
                  refine ⟨?_, ?_, ?_⟩ <;> trivial
                | ok u =>
                  cases hsave :
                      env.save (derivedUserKey (claims.oid.getD "") (claims.tid.getD "")) with
                  | error e =>
                    refine Or.inl ?_
                    unfold auth_callback
                    rw [hc]
                    dsimp only
                    rw [if_neg hne]
                    simp only [hex, hat, hid, hv]
                    rw [if_neg hcond]
                    simp only [hcont, hsave]
                    refine ⟨?_, ?_, ?_⟩ <;> trivial
                  | ok u2 =>
                    refine Or.inr ⟨code, result, idTok, claims, rfl, hne, hex, hid, hv,
                      ho, ht, ?_⟩
                    unfold auth_callback
                    rw [hc]
                    dsimp only
                    rw [if_neg hne]
                    simp only [hex, hat, hid, hv]
                    rw [if_neg hcond]
                    simp only [hcont, hsave]

/-- Claim C2: every `/auth/callback` run that fails before persistence —
missing (or empty) code parameter, id_token verification raising, or a
missing/empty oid or tid claim — answers 400 and performs no session
mutation and no Token Cache Store write; in particular verification
failure precludes any store write, so verification happens before
persistence. -/
theorem auth_callback_prepersist_failures
    (env : CallbackEnv) (req : CallbackRequest) (s : Session) :
    (strTruthy req.code = false →
      auth_callback env req s = ⟨.text 400 "No authorization code provided", [], []⟩) ∧
    (∀ code atk result idTok e, req.code = some code → code ≠ "" →
      env.exchange code (parseScopes req.scopes) = .ok result →
      result.access_token = some atk → result.id_token = some idTok →
      env.verify idTok = .error e →
      auth_callback env req s =
        ⟨.text 400 "❌ Auth Callback Error:Failed to verify id_token", [], []⟩) ∧
    (∀ code atk result idTok claims, req.code = some code → code ≠ "" →
      env.exchange code (parseScopes req.scopes) = .ok result →
      result.access_token = some atk → result.id_token = some idTok →
      env.verify idTok = .ok claims →
      (strTruthy claims.oid = false ∨ strTruthy claims.tid = false) →
      auth_callback env req s =
        ⟨.text 400 "❌ Auth Callback Error: Missing 'oid' or 'tid' claim in id_token",
         [], []⟩) := by
  refine ⟨?_, ?_, ?_⟩
  · intro h
    cases hc : req.code with
    | none =>
      unfold auth_callback
      rw [hc]
    | some code =>
      rw [hc] at h
      simp [strTruthy] at h
      subst h
      unfold auth_callback
      rw [hc]
      rfl
  · intro code atk result idTok e hc hne hex hat hid hv
    unfold auth_callback
    rw [hc]
    dsimp only
    rw [if_neg hne]
    simp only [hex, hat, hid, hv]
  · intro code atk result idTok claims hc hne hex hat hid hv hclaims
    unfold auth_callback
    rw [hc]
    dsimp only
    rw [if_neg hne]
    simp only [hex, hat, hid, hv]
    rw [if_pos hclaims]

/-- Witness for C2 at a concrete input: valid code, exchange succeeds, but
`verify_id_token` raises — 400, no session mutation, no store write. -/
theorem auth_callback_prepersist_failures_witness :
    auth_callback cbEnvBadVerify cbReqOk [] =
      ⟨.text 400 "❌ Auth Callback Error:Failed to verify id_token", [], []⟩ :=
  (auth_callback_prepersist_failures cbEnvBadVerify cbReqOk []).2.1
    "authcode" "acc-tok-1" ⟨some "acc-tok-1", some "idtok-1", none⟩ "idtok-1"
    "InvalidSignature" rfl (by decide) rfl rfl rfl rfl

/-- Claim C3: every run of `/auth/callback` that succeeds (status 200)
performs exactly one Token Cache Store write, and when the persistence
write raises the whole exchange is answered 400 with the session left
without authenticated state. -/
theorem auth_callback_single_write_atomic
    (env : CallbackEnv) (req : CallbackRequest) (s : Session) :
    ((auth_callback env req s).resp.statusCode = 200 →
      (auth_callback env req s).storeWrites.length = 1) ∧
    (∀ code atk result idTok claims e, req.code = some code → code ≠ "" →
      env.exchange code (parseScopes req.scopes) = .ok result →
      result.access_token = some atk → result.id_token = some idTok →
      env.verify idTok = .ok claims →
      strTruthy claims.oid = true → strTruthy claims.tid = true →
      env.container = .ok () →
      env.save (derivedUserKey (claims.oid.getD "") (claims.tid.getD "")) = .error e →
      auth_callback env req s =
        ⟨.text 400 ("❌ Auth Callback Error: Token exchange failed raising " ++ e),
         [], []⟩) := by
  constructor
  · intro h200
    rcases auth_callback_cases env req s with ⟨h400, _, _⟩ | ⟨_, _, _, _, _, _, _, _, _, _, _, heq⟩
    · rw [h400] at h200
      exact absurd h200 (by decide)
    · rw [heq]
      rfl
  · intro code atk result idTok claims e hc hne hex hat hid hv ho ht hcont hsave
    have hcond : ¬(strTruthy claims.oid = false ∨ strTruthy claims.tid = false) := by
      simp [ho, ht]
    unfold auth_callback
    rw [hc]
    dsimp only
    rw [if_neg hne]
    simp only [hex, hat, hid, hv]
    rw [if_neg hcond]
    simp only [hcont, hsave]

/-- Witness for C3 at a concrete input: everything succeeds up to the
Cosmos write, which raises — 400 and an unauthenticated session. -/
theorem auth_callback_single_write_atomic_witness :
    auth_callback cbEnvBadSave cbReqOk [] =
      ⟨.text 400
        ("❌ Auth Callback Error: Token exchange failed raising " ++ "CosmosUnavailable"),
       [], []⟩ :=
  (auth_callback_single_write_atomic cbEnvBadSave cbReqOk []).2
    "authcode" "acc-tok-1" ⟨some "acc-tok-1", some "idtok-1", none⟩ "idtok-1"
    ⟨some "oid1", some "tid1", some "user@example.com", some "User One"⟩
    "CosmosUnavailable" rfl (by decide) rfl rfl rfl rfl (by decide) (by decide) rfl rfl

/-- Claim C9: on a successful exchange the key written to the Token Cache
Store and bound to the session is `derivedUserKey oid tid`, which equals
the concatenation `oid ++ "." ++ tid`; the statement holds for every
environment, request and session, so repeated exchanges for the same
`(oid, tid)` account always derive the same user_key. -/
theorem user_key_is_oid_dot_tid
    (env : CallbackEnv) (req : CallbackRequest) (s : Session)
    (code atk idTok o t : String) (result : MsalResult) (claims : IdClaims)
    (hc : req.code = some code) (hne : code ≠ "")
    (hex : env.exchange code (parseScopes req.scopes) = .ok result)
    (hat : result.access_token = some atk) (hid : result.id_token = some idTok)
    (hv : env.verify idTok = .ok claims)
    (ho : claims.oid = some o) (hoNe : o ≠ "")
    (ht : claims.tid = some t) (htNe : t ≠ "")
    (hcont : env.container = .ok ())
    (hsave : env.save (derivedUserKey o t) = .ok ()) :
    derivedUserKey o t = o ++ "." ++ t ∧
    (auth_callback env req s).storeWrites = [derivedUserKey o t] ∧
    (auth_callback env req s).sessionOps.head? =
      some (.set "user_id" (.str (derivedUserKey o t))) := by
  have hrun : auth_callback env req s =
      ⟨.text 200 "",
       [.set "user_id" (.str (derivedUserKey o t)),
        .set "auth_time" (.num env.now),
        .set "user_email" (.str (claims.email.getD "")),
        .set "user_name" (.str (claims.name.getD ""))],
       [derivedUserKey o t]⟩ := by
    have hcond : ¬(strTruthy claims.oid = false ∨ strTruthy claims.tid = false) := by
      simp [strTruthy, ho, ht, hoNe, htNe]
    unfold auth_callback
    rw [hc]
    dsimp only
    rw [if_neg hne]
    simp only [hex, hat, hid, hv]
    rw [if_neg hcond]
    simp only [ho, ht, Option.getD_some]
    simp only [hcont, hsave]
  exact ⟨rfl, by rw [hrun], by rw [hrun]; rfl⟩

/-- Witness for C9 at a concrete input. -/
theorem user_key_is_oid_dot_tid_witness :
    derivedUserKey "oid1" "tid1" = "oid1" ++ "." ++ "tid1" ∧
    (auth_callback cbEnvOk cbReqOk []).storeWrites = [derivedUserKey "oid1" "tid1"] ∧
    (auth_callback cbEnvOk cbReqOk []).sessionOps.head? =
      some (.set "user_id" (.str (derivedUserKey "oid1" "tid1"))) :=
  user_key_is_oid_dot_tid cbEnvOk cbReqOk []
    "authcode" "acc-tok-1" "idtok-1" "oid1" "tid1"
    ⟨some "acc-tok-1", some "idtok-1", none⟩
    ⟨some "oid1", some "tid1", some "user@example.com", some "User One"⟩
    rfl (by decide) rfl rfl rfl rfl rfl (by decide) rfl (by decide) rfl rfl

/-- Claim C6 (code bug): a successful `/auth/callback` run populates the
session with `user_id` (and returns 200), yet `GET /auth/status` on that
very session reports `authenticated: false`, because the handler inspects
the session key `"access_token"`, which no handler ever writes. -/
theorem auth_status_false_after_successful_login :
    (auth_callback cbEnvOk cbReqOk []).resp = .text 200 "" ∧
    sessionGet (applySessionOps [] (auth_callback cbEnvOk cbReqOk []).sessionOps)
        "user_id" = some (.str "oid1.tid1") ∧
    auth_status (applySessionOps [] (auth_callback cbEnvOk cbReqOk []).sessionOps) =
      .json 200 [("authenticated", .bool false)] :=
  ⟨rfl, rfl, rfl⟩

/-- Claim C7: the `/auth/callback` handler reads neither the CSRF state
nonce stored in the session nor the `state` value echoed in the query
string — two requests identical except for those two values produce the
same response, the same session mutations and the same store writes. -/
theorem auth_callback_ignores_csrf_state
    (env : CallbackEnv) (code scopes q1 q2 : Option String)
    (base : Session) (n1 n2 : SVal) :
    auth_callback env ⟨code, scopes, q1⟩ (("state", n1) :: base) =
    auth_callback env ⟨code, scopes, q2⟩ (("state", n2) :: base) :=
  rfl

/-- Counterexample for C8 as stated: when the MSAL exchange raises an
exception whose text is `"BOOM"`, the 400 body of `/auth/callback`
contains that internal exception text after the stable message. -/
theorem auth_callback_exception_text_in_body :
    (auth_callback cbEnvRaises cbReqOk []).resp =
      .text 400 ("❌ Auth Callback Error: Token exchange failed raising " ++ "BOOM") :=
  rfl

/-- Claim C8 (amended): when the provider library raises during the token
exchange, the 400 body is the stable message followed by the internal
exception's text — the exception text is returned to the unauthenticated
caller rather than hidden (only session and store stay untouched). -/
theorem auth_callback_exchange_exception_message
    (env : CallbackEnv) (req : CallbackRequest) (s : Session) (code e : String)
    (hc : req.code = some code) (hne : code ≠ "")
    (hex : env.exchange code (parseScopes req.scopes) = .error e) :
    auth_callback env req s =
      ⟨.text 400 ("❌ Auth Callback Error: Token exchange failed raising " ++ e),
       [], []⟩ := by
  unfold auth_callback
  rw [hc]
  dsimp only
  rw [if_neg hne]
  simp only [hex]

/-- Witness for C8's amended claim at a concrete input. -/
theorem auth_callback_exchange_exception_message_witness :
    auth_callback cbEnvRaises cbReqOk [] =
      ⟨.text 400 ("❌ Auth Callback Error: Token exchange failed raising " ++ "BOOM"),
       [], []⟩ :=
  auth_callback_exchange_exception_message cbEnvRaises cbReqOk [] "authcode" "BOOM"
    rfl (by decide) rfl

/-- Claim C10: session writes across all handlers are confined to the keys
`state`, `user_id`, `auth_time`, `user_email`, `user_name` (plus the
unconditional clear on logout): login writes only the state nonce, logout
only clears, `/auth/tokens` and `/arcade/verify` never write, and a
callback run either writes nothing or writes exactly the four entries
whose values are the claim-derived user key, the clock, and the verified
claims' email and display name — never a token value. `auth_status` and
the root handler return plain responses and their types carry no session
mutation at all. -/
theorem session_writes_confined :
    (∀ authUrlOf state, (login authUrlOf state).sessionOps = [.set "state" (.str state)]) ∧
    (∀ s, (logout s).sessionOps = [.clear]) ∧
    (∀ tenv s, (get_tokens tenv s).sessionOps = []) ∧
    (∀ aenv f s, (arcade_verify aenv f s).sessionOps = []) ∧
    (∀ env req s,
      (auth_callback env req s).sessionOps = [] ∨
      ∃ claims idTok,
        env.verify idTok = Except.ok claims ∧
        (auth_callback env req s).sessionOps =
          [.set "user_id" (.str (derivedUserKey (claims.oid.getD "") (claims.tid.getD ""))),
           .set "auth_time" (.num env.now),
           .set "user_email" (.str (claims.email.getD "")),
           .set "user_name" (.str (claims.name.getD ""))]) := by
  refine ⟨fun _ _ => rfl, fun _ => rfl, ?_, ?_, ?_⟩
  · intro tenv s
    unfold get_tokens
    repeat' split
    all_goals rfl
  · intro aenv f s
    unfold arcade_verify
    repeat' (first | split | dsimp only)
  · intro env req s
    rcases auth_callback_cases env req s with ⟨_, hops, _⟩ |
      ⟨code, result, idTok, claims, _, _, _, _, hv, _, _, heq⟩
    · exact Or.inl hops
    · refine Or.inr ⟨claims, idTok, hv, ?_⟩
      rw [heq]

end Backend
